import Mathlib

/-
Verification of the methylation preprocessing pipeline
(Python_package/DNAm/python/preprocess.py and
Python_package/CH3/python/preprocess.py) against its natural-language
specification.

Matrix entries are modelled as `Option ℚ`: `none` is the floating NaN
("missing") value of the pandas data frames, `some q` a finite float.
Division results can also be infinite in pandas, so the beta-value stage
uses the richer `PFloat` type.  The real-valued background model
(standard deviations and detection thresholds, which involve square
roots) lives in a noncomputable section over `ℝ`.
-/

namespace Methyl

/-- Chemistry type of a probe: the `type` column of the probe manifest. -/
inductive PType where
  | IGrn : PType
  | IRed : PType
  | II : PType
deriving DecidableEq

/-- One row of the probe manifest: identifier, chromosome, chemistry type and
the two bead addresses (columns `address.a` / `address.b`). -/
structure Probe where
  name : String
  chr : String
  ptype : PType
  addressA : ℕ
  addressB : ℕ
deriving DecidableEq

/-- One row of a per-sample bead summary table (`load_data` renames the CSV
columns to sample_id, grn_n, grn_mean, grn_sd, red_n, red_mean, red_sd). -/
structure BeadRow where
  grn_n : ℕ
  grn_mean : ℚ
  grn_sd : ℚ
  red_n : ℕ
  red_mean : ℚ
  red_sd : ℚ
deriving DecidableEq

/-- One row of the control-bead manifest (columns `type` and `description`). -/
structure Control where
  ctype : String
  description : String
deriving DecidableEq

/-- A-role intensity of one probe, DNAm preprocess lines 125-127.  The source
builds `ad_a_grn = (probes[...].loc[...]).index` and so on: it selects an
address column but keeps only the row index of the selection, so
`data.loc[ad_a_grn, ...]` looks the bead summary up at the row positions of
the probes themselves; the address values are never used.  Hence the lookup
depends only on the chemistry type, and `r` is the bead-summary row at the
position of the probe. -/
def extractA (minBeads : ℕ) (p : Probe) (r : BeadRow) : Option ℚ :=
  match p.ptype with
  | PType.IGrn => if minBeads ≤ r.grn_n then some r.grn_mean else none
  | PType.IRed => if minBeads ≤ r.red_n then some r.red_mean else none
  | PType.II => if minBeads ≤ r.grn_n then some r.grn_mean else none

/-- B-role intensity of one probe, DNAm preprocess lines 131-133.  For a
Type II probe line 133 gates on `red_n` but reads `grn_mean`:
`np.where(data.loc[ad_a_inf, red_n] >= min_beads, data.loc[ad_a_inf, grn_mean], np.nan)`. -/
def extractB (minBeads : ℕ) (p : Probe) (r : BeadRow) : Option ℚ :=
  match p.ptype with
  | PType.IGrn => if minBeads ≤ r.grn_n then some r.grn_mean else none
  | PType.IRed => if minBeads ≤ r.red_n then some r.red_mean else none
  | PType.II => if minBeads ≤ r.red_n then some r.grn_mean else none

/-- Green-channel control-bead intensity (DNAm lines 137-139): kept when the
bead count is positive, missing otherwise. -/
def controlGrnVal (r : BeadRow) : Option ℚ :=
  if 0 < r.grn_n then some r.grn_mean else none

/-- Red-channel control-bead intensity (DNAm lines 146-148). -/
def controlRedVal (r : BeadRow) : Option ℚ :=
  if 0 < r.red_n then some r.red_mean else none

end Methyl

namespace Methyl

/-- An example Type II probe used as concrete input. -/
def exProbeII : Probe := ⟨"cg00001", "1", PType.II, 11, 22⟩

/-- A second Type II probe with different bead addresses. -/
def exProbeII2 : Probe := ⟨"cg00002", "2", PType.II, 33, 44⟩

/-- A bead-summary row whose green mean (7) differs from its red mean (9),
with both bead counts at 5. -/
def exRowGR : BeadRow := ⟨5, 7, 1, 5, 9, 1⟩

/-- C4, counterexample.  The claim says the B-role of a Type II probe is the
red-channel mean at `address_a`; on the source, line 133 reads the
green-channel mean (gated by the red bead count), so with green mean 7 and
red mean 9 the extracted B-role value is 7, not 9. -/
theorem claim_C4_counterexample :
    extractB 3 exProbeII exRowGR = some 7 ∧ extractB 3 exProbeII exRowGR ≠ some 9 := by
  decide

/-- C4, amended.  The extracted intensity is determined by the chemistry type
alone and a row-position lookup into the bead summary; the bead addresses of
the probe are never consulted (first conjunct: two probes of equal type
extract identically, whatever their addresses).  I-Grn probes read the green
mean for both roles, I-Red probes read the red mean for both roles, Type II
probes read the green mean for both roles with the B-role gated by the red
bead count; every value is missing when its gating bead count is below
`min_beads`. -/
theorem claim_C4_extraction_amended (mb : ℕ) (p q : Probe) (r : BeadRow)
    (hpq : q.ptype = p.ptype) :
    (extractA mb q r = extractA mb p r ∧ extractB mb q r = extractB mb p r)
    ∧ (p.ptype = PType.IGrn →
        extractA mb p r = extractB mb p r
        ∧ (mb ≤ r.grn_n → extractA mb p r = some r.grn_mean)
        ∧ (r.grn_n < mb → extractA mb p r = none))
    ∧ (p.ptype = PType.IRed →
        extractA mb p r = extractB mb p r
        ∧ (mb ≤ r.red_n → extractA mb p r = some r.red_mean)
        ∧ (r.red_n < mb → extractA mb p r = none))
    ∧ (p.ptype = PType.II →
        (mb ≤ r.grn_n → extractA mb p r = some r.grn_mean)
        ∧ (mb ≤ r.red_n → extractB mb p r = some r.grn_mean)
        ∧ (r.grn_n < mb → extractA mb p r = none)
        ∧ (r.red_n < mb → extractB mb p r = none)) := by
  refine ⟨⟨?_, ?_⟩, ?_, ?_, ?_⟩
  · simp only [extractA, hpq]
  · simp only [extractB, hpq]
  · intro h
    refine ⟨by simp only [extractA, extractB, h], fun hle => ?_, fun hlt => ?_⟩
    · simp only [extractA, h, if_pos hle]
    · simp only [extractA, h, if_neg (not_le.mpr hlt)]
  · intro h
    refine ⟨by simp only [extractA, extractB, h], fun hle => ?_, fun hlt => ?_⟩
    · simp only [extractA, h, if_pos hle]
    · simp only [extractA, h, if_neg (not_le.mpr hlt)]
  · intro h
    refine ⟨fun hle => ?_, fun hle => ?_, fun hlt => ?_, fun hlt => ?_⟩
    · simp only [extractA, h, if_pos hle]
    · simp only [extractB, h, if_pos hle]
    · simp only [extractA, h, if_neg (not_le.mpr hlt)]
    · simp only [extractB, h, if_neg (not_le.mpr hlt)]

/-- C4, witness: the amended theorem applied to the two concrete Type II
probes (different addresses) and the concrete bead row. -/
theorem claim_C4_witness :
    (exProbeII2.ptype = exProbeII.ptype)
    ∧ ((extractA 3 exProbeII2 exRowGR = extractA 3 exProbeII exRowGR
        ∧ extractB 3 exProbeII2 exRowGR = extractB 3 exProbeII exRowGR)
      ∧ (exProbeII.ptype = PType.IGrn →
          extractA 3 exProbeII exRowGR = extractB 3 exProbeII exRowGR
          ∧ (3 ≤ exRowGR.grn_n → extractA 3 exProbeII exRowGR = some exRowGR.grn_mean)
          ∧ (exRowGR.grn_n < 3 → extractA 3 exProbeII exRowGR = none))
      ∧ (exProbeII.ptype = PType.IRed →
          extractA 3 exProbeII exRowGR = extractB 3 exProbeII exRowGR
          ∧ (3 ≤ exRowGR.red_n → extractA 3 exProbeII exRowGR = some exRowGR.red_mean)
          ∧ (exRowGR.red_n < 3 → extractA 3 exProbeII exRowGR = none))
      ∧ (exProbeII.ptype = PType.II →
          (3 ≤ exRowGR.grn_n → extractA 3 exProbeII exRowGR = some exRowGR.grn_mean)
          ∧ (3 ≤ exRowGR.red_n → extractB 3 exProbeII exRowGR = some exRowGR.grn_mean)
          ∧ (exRowGR.grn_n < 3 → extractA 3 exProbeII exRowGR = none)
          ∧ (exRowGR.red_n < 3 → extractB 3 exProbeII exRowGR = none))) :=
  ⟨by decide, claim_C4_extraction_amended 3 exProbeII exProbeII2 exRowGR (by decide)⟩

end Methyl

namespace Methyl

/-- Probe-by-sample intensity matrix: rows in probe order, one column per
sample, entries missing (NaN) or a finite float. -/
abbrev IntensityMat := List (List (Option ℚ))

/-- Result domain of a pandas float division: NaN, an infinity, or a finite
value.  `isnull` is true exactly on NaN. -/
inductive PFloat where
  | nan : PFloat
  | pinf : PFloat
  | ninf : PFloat
  | fin : ℚ → PFloat
deriving DecidableEq

/-- pandas `isnull` on a float: true only for NaN (infinities are not null). -/
def PFloat.isNA : PFloat → Bool
  | PFloat.nan => true
  | _ => false

/-- Entrywise `DataFrame.add` with `fill_value=0` (DNAm line 229): a missing
operand is replaced by 0 unless both operands are missing, in which case the
result stays missing. -/
def fillAdd (a b : Option ℚ) : Option ℚ :=
  match a, b with
  | none, none => none
  | none, some y => some y
  | some x, none => some x
  | some x, some y => some (x + y)

/-- pandas float division on possibly-missing operands: NaN propagates, 0/0
is NaN, and a nonzero numerator over 0 gives a signed infinity. -/
def pdDivQ (x y : Option ℚ) : PFloat :=
  match x, y with
  | none, _ => PFloat.nan
  | some _, none => PFloat.nan
  | some a, some b =>
      if b = 0 then
        (if a = 0 then PFloat.nan else (if 0 < a then PFloat.pinf else PFloat.ninf))
      else PFloat.fin (a / b)

/-- Beta-value of one matrix entry, DNAm lines 229-231:
`intensities = intensities_A.add(intensities_B, fill_value=0)` followed by
`dnam = intensities_B.loc[...]/intensities`.  (The `.difference(idx)` on
line 231 removes nothing: `idx` holds probe-name labels while the matrix
still carries its original integer index, so the quotient is taken on every
row.) -/
def bvBeta (a b : Option ℚ) : PFloat :=
  pdDivQ b (fillAdd a b)

/-- The whole beta matrix, entrywise `bvBeta` over aligned rows. -/
def dnamMatrix (A B : IntensityMat) : List (List PFloat) :=
  List.zipWith (fun ra rb => List.zipWith bvBeta ra rb) A B

/-- C1, counterexample.  With the A intensity missing and B = 5, the source
computes `intensities = 0 + 5 = 5` (fill_value treats the missing A as 0) and
beta = 5/5 = 1, a present value; the claim requires the beta-value to be
missing whenever either input intensity is missing. -/
theorem claim_C1_counterexample :
    bvBeta none (some 5) = PFloat.fin 1 ∧ (bvBeta none (some 5)).isNA = false := by
  have h : bvBeta none (some 5) = PFloat.fin 1 := by
    simp only [bvBeta, fillAdd, pdDivQ]
    norm_num
  exact ⟨h, by rw [h]; rfl⟩

/-- C1, amended.  For a non-SNP probe the beta-value is B / (A + B) where a
missing operand contributes 0 to the denominator when the other is present:
with both intensities present and non-negative and not both zero, beta equals
B/(A+B) and lies in [0,1]; with both present it is missing iff both are zero;
it is missing whenever B is missing (and when both are missing); but a
missing A with B present and positive yields beta = 1, not a missing value. -/
theorem claim_C1_beta_amended (a b : ℚ) (ha : 0 ≤ a) (hb : 0 ≤ b) :
    (¬(a = 0 ∧ b = 0) →
      bvBeta (some a) (some b) = PFloat.fin (b / (a + b))
      ∧ 0 ≤ b / (a + b) ∧ b / (a + b) ≤ 1)
    ∧ ((bvBeta (some a) (some b)).isNA = true ↔ (a = 0 ∧ b = 0))
    ∧ (bvBeta (some a) none).isNA = true
    ∧ (bvBeta none none).isNA = true
    ∧ (0 < b → bvBeta none (some b) = PFloat.fin 1) := by
  have hzero : a + b = 0 ↔ (a = 0 ∧ b = 0) := by
    constructor
    · intro h; constructor <;> linarith
    · intro h; rw [h.1, h.2]; ring
  refine ⟨?_, ?_, rfl, rfl, ?_⟩
  · intro hne
    have h0 : a + b ≠ 0 := fun h => hne (hzero.mp h)
    have hpos : 0 < a + b := lt_of_le_of_ne (add_nonneg ha hb) (Ne.symm h0)
    refine ⟨?_, div_nonneg hb hpos.le, (div_le_one hpos).mpr (by linarith)⟩
    simp only [bvBeta, fillAdd, pdDivQ, if_neg h0]
  · by_cases h0 : a + b = 0
    · have hab := hzero.mp h0
      have hv : bvBeta (some a) (some b) = PFloat.nan := by
        simp only [bvBeta, fillAdd, pdDivQ, if_pos h0, if_pos hab.2]
      rw [hv]
      exact ⟨fun _ => hab, fun _ => rfl⟩
    · have hne : ¬(a = 0 ∧ b = 0) := fun hc => h0 (hzero.mpr hc)
      have hv : bvBeta (some a) (some b) = PFloat.fin (b / (a + b)) := by
        simp only [bvBeta, fillAdd, pdDivQ, if_neg h0]
      rw [hv]
      constructor
      · intro h
        exact absurd h (by simp [PFloat.isNA])
      · intro h
        exact absurd h hne
  · intro hbpos
    have hb0 : b ≠ 0 := ne_of_gt hbpos
    simp only [bvBeta, fillAdd, pdDivQ, if_neg hb0, div_self hb0]

/-- C1, witness: the amended theorem applied at A = 1, B = 1. -/
theorem claim_C1_witness :
    ((0 : ℚ) ≤ 1 ∧ (0 : ℚ) ≤ 1)
    ∧ ((¬((1 : ℚ) = 0 ∧ (1 : ℚ) = 0) →
          bvBeta (some 1) (some 1) = PFloat.fin (1 / (1 + 1))
          ∧ 0 ≤ (1 : ℚ) / (1 + 1) ∧ (1 : ℚ) / (1 + 1) ≤ 1)
      ∧ ((bvBeta (some 1) (some 1)).isNA = true ↔ ((1 : ℚ) = 0 ∧ (1 : ℚ) = 0))
      ∧ (bvBeta (some (1 : ℚ)) none).isNA = true
      ∧ (bvBeta none none).isNA = true
      ∧ ((0 : ℚ) < 1 → bvBeta none (some 1) = PFloat.fin 1)) :=
  ⟨⟨by norm_num, by norm_num⟩, claim_C1_beta_amended 1 1 (by norm_num) (by norm_num)⟩

end Methyl

namespace Methyl

/-- Present values of a pandas series (skipna). -/
def skipna (xs : List (Option ℚ)) : List ℚ := xs.filterMap id

/-- pandas `DataFrame.sum(axis=1)` for one row: the sum of the present
entries across the sample columns (an all-missing row sums to 0).  This is
the quantity `I_A` of DNAm line 169 — the sum of the SAME matrix across
samples, not the A+B total. -/
def rowSumSkipna (xs : List (Option ℚ)) : ℚ := (skipna xs).sum

/-- pandas `Series.gt`: a missing value compares as False. -/
def pdGt (x : Option ℚ) (c : ℚ) : Bool :=
  match x with
  | some v => decide (c < v)
  | none => false

/-- The condition under which the censor filter of DNAm lines 176-185 keeps
an entry: the entry strictly exceeds the negative-control mean of its group
and the cross-sample row sum strictly exceeds the detection threshold. -/
def censorKept (x : Option ℚ) (negMean rowSum thr : ℚ) : Bool :=
  pdGt x negMean && decide (thr < rowSum)

/-- The filtered sub-series the censor loop builds for one group row:
boolean-mask selection keeps only the passing entries. -/
def censorRowTemp (row : List (Option ℚ)) (negMean thr rowSum : ℚ) : List (Option ℚ) :=
  row.filter (fun x => censorKept x negMean rowSum thr)

/-- Censor / background stage, DNAm lines 168-199.  Each chemistry group is
read out of the matrix by chained indexing (`intensities_A[column].loc[...]`),
which produces a fresh copy; the filtered series is then assigned onto that
copy (`intensities_A_grn[column] = ...`) and discarded.  The matrices
`intensities_A` / `intensities_B` are never written, so the stage returns its
input unchanged.  The Type II group is compared against the RED channel
negative mean (lines 185 and 199). -/
def censorStage (ptypes : List PType) (mg mr tg tr t2 : ℚ) (A : IntensityMat) :
    IntensityMat :=
  let rowSums := A.map rowSumSkipna
  let _discarded :=
    (ptypes.zip (A.zip rowSums)).map (fun x =>
      match x.1 with
      | PType.IGrn => censorRowTemp x.2.1 mg tg x.2.2
      | PType.IRed => censorRowTemp x.2.1 mr tr x.2.2
      | PType.II => censorRowTemp x.2.1 mr t2 x.2.2)
  A

/-- C2: the censor stage is a no-op on the intensity matrices.  Concretely:
one I-Grn probe with value 5, negative-control mean 10 and detection
threshold 100 fails both retention tests (5 is not above 10, and the total 5
is not above 100), yet the output matrix still holds 5 — the filtered series
is assigned to a discarded chained-indexing copy, never back to the matrix.
Also shown: the would-be filter indeed drops the value in its temporary. -/
theorem claim_C2_censor_noop :
    censorStage [PType.IGrn] 10 10 100 100 100 [[some 5]] = [[some 5]]
    ∧ censorKept (some 5) 10 (rowSumSkipna [some 5]) 100 = false
    ∧ censorRowTemp [some 5] 10 100 (rowSumSkipna [some 5]) = [] := by
  decide

end Methyl

namespace Methyl

/-- Multiply every present entry of a row (all sample columns) by a scalar. -/
def scaleRow (c : ℚ) (row : List (Option ℚ)) : List (Option ℚ) :=
  row.map (Option.map (fun x => x * c))

/-- One iteration of the dye-bias loop body, DNAm lines 217-218: the
whole-frame assignments `intensities_A.loc[inf2] *= corrections_red` and
`intensities_B.loc[inf2] *= corrections_grn` scale the Type II rows of EVERY
sample column by the current iteration's scalar corrections.  `mask` flags
the Type II rows. -/
def applyCorrectionOnce (mask : List Bool) (cr cg : ℚ) (A B : IntensityMat) :
    IntensityMat × IntensityMat :=
  (List.zipWith (fun t row => if t then scaleRow cr row else row) mask A,
   List.zipWith (fun t row => if t then scaleRow cg row else row) mask B)

/-- Dye-bias stage, DNAm lines 208-218: the loop over the sample columns
computes per-sample scalar corrections (lines 209-214) and, still inside the
loop, applies each of them to the whole matrices.  `corrs` lists the
per-sample (corrections_red, corrections_grn) pairs in loop order. -/
def dyeBiasStage (mask : List Bool) (corrs : List (ℚ × ℚ)) (A B : IntensityMat) :
    IntensityMat × IntensityMat :=
  corrs.foldl (fun AB c => applyCorrectionOnce mask c.1 c.2 AB.1 AB.2) (A, B)

/-- Dye-bias application as the specification words it: each sample column of
a Type II row is scaled by that sample's own correction factor, and nothing
else changes. -/
def dyeBiasSpec (mask : List Bool) (corrs : List (ℚ × ℚ)) (A B : IntensityMat) :
    IntensityMat × IntensityMat :=
  (List.zipWith (fun t row =>
      if t then List.zipWith (fun c x => Option.map (fun v => v * c.1) x) corrs row else row) mask A,
   List.zipWith (fun t row =>
      if t then List.zipWith (fun c x => Option.map (fun v => v * c.2) x) corrs row else row) mask B)

/-- C6, counterexample.  Two samples, one Type II probe, all intensities 1.
Sample 1 has correction 2, sample 2 has correction 1.  The code multiplies
both columns by both corrections (the whole-matrix assignment sits inside the
per-sample loop), so sample 2 ends at 2; the claim says sample 2 is scaled
only by its own factor 1.0 and stays 1 — which also refutes the scenario
that a correction factor of exactly 1.0 leaves that sample's Type II
intensities unchanged. -/
theorem claim_C6_counterexample :
    dyeBiasStage [true] [(2, 2), (1, 1)] [[some 1, some 1]] [[some 1, some 1]]
      ≠ dyeBiasSpec [true] [(2, 2), (1, 1)] [[some 1, some 1]] [[some 1, some 1]] := by
  have hL : dyeBiasStage [true] [(2, 2), (1, 1)] [[some 1, some 1]] [[some 1, some 1]]
      = ([[some 2, some 2]], [[some 2, some 2]]) := by
    norm_num [dyeBiasStage, applyCorrectionOnce, scaleRow]
  have hR : dyeBiasSpec [true] [(2, 2), (1, 1)] [[some 1, some 1]] [[some 1, some 1]]
      = ([[some 2, some 1]], [[some 2, some 1]]) := by
    norm_num [dyeBiasSpec]
  rw [hL, hR]
  norm_num

lemma optScale_one (o : Option ℚ) : Option.map (fun x => x * 1) o = o := by
  cases o
  · rfl
  · simp

lemma optScale_comp (c d : ℚ) (o : Option ℚ) :
    Option.map (fun x => x * d) (Option.map (fun x => x * c) o)
      = Option.map (fun x => x * (c * d)) o := by
  cases o
  · rfl
  · simp [mul_assoc]

lemma scaleRow_one (row : List (Option ℚ)) : scaleRow 1 row = row := by
  induction row with
  | nil => rfl
  | cons h t ih =>
      simp only [scaleRow, List.map] at ih ⊢
      rw [List.cons.injEq]
      exact ⟨optScale_one h, ih⟩

lemma scaleRow_scaleRow (c d : ℚ) (row : List (Option ℚ)) :
    scaleRow d (scaleRow c row) = scaleRow (c * d) row := by
  induction row with
  | nil => rfl
  | cons h t ih =>
      simp only [scaleRow, List.map] at ih ⊢
      rw [List.cons.injEq]
      exact ⟨optScale_comp c d h, ih⟩

lemma zipWith_scale_id (mask : List Bool) (A : IntensityMat) (h : A.length ≤ mask.length) :
    List.zipWith (fun t row => if t then scaleRow 1 row else row) mask A = A := by
  induction mask generalizing A with
  | nil =>
      cases A with
      | nil => rfl
      | cons r rs => simp at h
  | cons m ms ih =>
      cases A with
      | nil => rfl
      | cons r rs =>
          simp only [List.zipWith]
          rw [ih rs (by simpa using h), List.cons.injEq]
          refine ⟨?_, rfl⟩
          cases m
          · rfl
          · simpa using scaleRow_one r

lemma zipWith_scale_comp (mask : List Bool) (A : IntensityMat) (c p : ℚ) :
    List.zipWith (fun t row => if t then scaleRow p row else row) mask
      (List.zipWith (fun t row => if t then scaleRow c row else row) mask A)
    = List.zipWith (fun t row => if t then scaleRow (c * p) row else row) mask A := by
  induction mask generalizing A with
  | nil => rfl
  | cons m ms ih =>
      cases A with
      | nil => rfl
      | cons r rs =>
          simp only [List.zipWith]
          rw [ih rs, List.cons.injEq]
          refine ⟨?_, rfl⟩
          cases m
          · rfl
          · simpa using scaleRow_scaleRow c p r

lemma dyeBiasStage_char (mask : List Bool) (corrs : List (ℚ × ℚ)) (A B : IntensityMat)
    (hA : A.length ≤ mask.length) (hB : B.length ≤ mask.length) :
    dyeBiasStage mask corrs A B
      = (List.zipWith (fun t row => if t then scaleRow (corrs.map Prod.fst).prod row else row) mask A,
         List.zipWith (fun t row => if t then scaleRow (corrs.map Prod.snd).prod row else row) mask B) := by
  induction corrs generalizing A B with
  | nil =>
      simp only [dyeBiasStage, List.foldl, List.map_nil, List.prod_nil]
      rw [zipWith_scale_id mask A hA, zipWith_scale_id mask B hB]
  | cons c cs ih =>
      have hstep : dyeBiasStage mask (c :: cs) A B
          = dyeBiasStage mask cs
              (List.zipWith (fun t row => if t then scaleRow c.1 row else row) mask A)
              (List.zipWith (fun t row => if t then scaleRow c.2 row else row) mask B) := rfl
      rw [hstep, ih _ _ (by rw [List.length_zipWith]; exact min_le_left _ _)
            (by rw [List.length_zipWith]; exact min_le_left _ _)]
      rw [zipWith_scale_comp, zipWith_scale_comp]
      simp only [List.map_cons, List.prod_cons]

/-- C6, amended.  Because the whole-matrix multiplication sits inside the
per-sample loop, every sample column of every Type II row ends up scaled by
the PRODUCT of all samples' corrections (A rows by the product of the
corrections_red, B rows by the product of the corrections_grn); rows that
are not Type II are untouched; and only if every sample's correction pair is
exactly 1.0 do the Type II intensities stay unchanged. -/
theorem claim_C6_dyebias_amended (mask : List Bool) (corrs : List (ℚ × ℚ))
    (A B : IntensityMat) (hA : A.length ≤ mask.length) (hB : B.length ≤ mask.length) :
    (dyeBiasStage mask corrs A B).1
      = List.zipWith (fun t row => if t then scaleRow (corrs.map Prod.fst).prod row else row) mask A
    ∧ (dyeBiasStage mask corrs A B).2
      = List.zipWith (fun t row => if t then scaleRow (corrs.map Prod.snd).prod row else row) mask B
    ∧ ((∀ c ∈ corrs, c = ((1 : ℚ), (1 : ℚ))) → dyeBiasStage mask corrs A B = (A, B)) := by
  have hchar := dyeBiasStage_char mask corrs A B hA hB
  refine ⟨by rw [hchar], by rw [hchar], fun hone => ?_⟩
  have h1 : (corrs.map Prod.fst).prod = 1 := by
    apply List.prod_eq_one
    intro x hx
    rcases List.mem_map.mp hx with ⟨c, hc, hcx⟩
    rw [← hcx, hone c hc]
  have h2 : (corrs.map Prod.snd).prod = 1 := by
    apply List.prod_eq_one
    intro x hx
    rcases List.mem_map.mp hx with ⟨c, hc, hcx⟩
    rw [← hcx, hone c hc]
  rw [hchar, h1, h2, zipWith_scale_id mask A hA, zipWith_scale_id mask B hB]

/-- C6, witness: the amended theorem applied to one Type II row, one sample
with correction pair (1, 1). -/
theorem claim_C6_witness :
    (([[some (2 : ℚ)]] : IntensityMat).length ≤ ([true] : List Bool).length
      ∧ ([[some (3 : ℚ)]] : IntensityMat).length ≤ ([true] : List Bool).length)
    ∧ ((dyeBiasStage [true] [((1 : ℚ), (1 : ℚ))] [[some 2]] [[some 3]]).1
        = List.zipWith (fun t row => if t then scaleRow ([((1 : ℚ), (1 : ℚ))].map Prod.fst).prod row else row) [true] [[some 2]]
      ∧ (dyeBiasStage [true] [((1 : ℚ), (1 : ℚ))] [[some 2]] [[some 3]]).2
        = List.zipWith (fun t row => if t then scaleRow ([((1 : ℚ), (1 : ℚ))].map Prod.snd).prod row else row) [true] [[some 3]]
      ∧ ((∀ c ∈ [((1 : ℚ), (1 : ℚ))], c = ((1 : ℚ), (1 : ℚ))) →
          dyeBiasStage [true] [((1 : ℚ), (1 : ℚ))] [[some 2]] [[some 3]] = ([[some 2]], [[some 3]]))) :=
  ⟨⟨by decide, by decide⟩,
   claim_C6_dyebias_amended [true] [((1 : ℚ), (1 : ℚ))] [[some 2]] [[some 3]]
     (by decide) (by decide)⟩

end Methyl

namespace Methyl

/-- The probes manifest as the pipeline sees it: the `Unnamed: 0` identifier
column (present until a run consumes it) and the current row index labels. -/
structure PTable where
  unnamedCol : Option (List String)
  index : List String
deriving DecidableEq

/-- pandas `set_index([Unnamed: 0], inplace=True)`: moves the identifier
column into the index, dropping it as a column; raises KeyError when the
column is absent. -/
def setIndexUnnamed (t : PTable) : Except String PTable :=
  match t.unnamedCol with
  | some ids => Except.ok ⟨none, ids⟩
  | none => Except.error "KeyError"

/-- Effect of one DNAm run on the caller-supplied probes manifest
(line 226): the table is re-indexed IN PLACE, so the caller's object is
permanently changed. -/
def probesAfterRun (t : PTable) : Except String PTable := setIndexUnnamed t

/-- pandas `controls[controls[description] == d] = repl` (CH3 lines 340-342):
every column of each matching row is overwritten with the scalar string. -/
def overwriteByDescription (rows : List Control) (d repl : String) : List Control :=
  rows.map (fun c => if c.description = d then ⟨repl, repl⟩ else c)

/-- Effect of the CH3 per-sample summary loop on the controls manifest:
the three GT-Mismatch rows are renamed in place (lines 340-342), mutating
the shared controls table during the run. -/
def controlsAfterSummaryLoop (rows : List Control) : List Control :=
  overwriteByDescription (overwriteByDescription (overwriteByDescription rows
      "GT Mismatch 1 (MM)" "gt_mismatch_1_mm")
      "GT Mismatch 2 (MM)" "gt_mismatch_2_mm")
      "GT Mismatch 3 (MM)" "gt_mismatch_3_mm"

/-- A two-probe manifest table as loaded (identifier column still present). -/
def exProbesTable : PTable := ⟨some ["cg00001", "rs1000"], ["0", "1"]⟩

/-- C5, counterexample.  A DNAm run mutates the in-memory probes manifest
(the identifier column is consumed into the index), so the table differs
after the run, and a second invocation on the same object raises KeyError
instead of reproducing the outputs; the CH3 summary loop likewise rewrites
the GT-Mismatch rows of the controls manifest in place. -/
theorem claim_C5_counterexample :
    probesAfterRun exProbesTable = Except.ok (⟨none, ["cg00001", "rs1000"]⟩ : PTable)
    ∧ (⟨none, ["cg00001", "rs1000"]⟩ : PTable) ≠ exProbesTable
    ∧ probesAfterRun ⟨none, ["cg00001", "rs1000"]⟩ = Except.error "KeyError"
    ∧ controlsAfterSummaryLoop [⟨"SPECIFICITY I", "GT Mismatch 1 (MM)"⟩]
        = [⟨"gt_mismatch_1_mm", "gt_mismatch_1_mm"⟩]
    ∧ controlsAfterSummaryLoop [⟨"SPECIFICITY I", "GT Mismatch 1 (MM)"⟩]
        ≠ [⟨"SPECIFICITY I", "GT Mismatch 1 (MM)"⟩] := by
  refine ⟨rfl, by decide, rfl, rfl, by decide⟩

/-- C5, amended.  A run mutates the probes manifest in place: whenever the
identifier column is present, the run moves it into the index and returns a
table different from the input, and a second invocation on the mutated table
fails with KeyError rather than yielding identical outputs.  Outputs are
reproducible only when fresh manifests are loaded for each run. -/
theorem claim_C5_mutation_amended (t : PTable) (ids : List String)
    (h : t.unnamedCol = some ids) :
    probesAfterRun t = Except.ok (⟨none, ids⟩ : PTable)
    ∧ (⟨none, ids⟩ : PTable) ≠ t
    ∧ probesAfterRun ⟨none, ids⟩ = Except.error "KeyError" := by
  refine ⟨?_, ?_, rfl⟩
  · simp only [probesAfterRun, setIndexUnnamed, h]
  · intro he
    rw [← he] at h
    exact Option.noConfusion h

/-- C5, witness: the amended theorem applied to the concrete two-probe
manifest. -/
theorem claim_C5_witness :
    (exProbesTable.unnamedCol = some ["cg00001", "rs1000"])
    ∧ (probesAfterRun exProbesTable = Except.ok (⟨none, ["cg00001", "rs1000"]⟩ : PTable)
      ∧ (⟨none, ["cg00001", "rs1000"]⟩ : PTable) ≠ exProbesTable
      ∧ probesAfterRun ⟨none, ["cg00001", "rs1000"]⟩ = Except.error "KeyError") :=
  ⟨rfl, claim_C5_mutation_amended exProbesTable ["cg00001", "rs1000"] rfl⟩

end Methyl

namespace Methyl

/-- pandas `Series.mean()`: the mean of the present values, missing when
there are none. -/
def pdMean (xs : List (Option ℚ)) : Option ℚ :=
  let v := skipna xs
  if v.length = 0 then none else some (v.sum / (v.length : ℚ))

/-- Square of pandas `Series.std()` (ddof = 1): the sample variance of the
present values, missing when fewer than two are present. -/
def pdVar (xs : List (Option ℚ)) : Option ℚ :=
  let v := skipna xs
  if v.length < 2 then none
  else some ((v.map (fun x => (x - v.sum / (v.length : ℚ)) ^ 2)).sum / ((v.length : ℚ) - 1))

/-- The green control-channel values of the NEGATIVE control beads of one
sample: `controls_grn[column].loc[neg_beads_grn]` (DNAm lines 141-142),
where each control bead carries the bead-summary row joined to it. -/
def negGrnVals (rows : List (Control × BeadRow)) : List (Option ℚ) :=
  (rows.filter (fun cr => cr.1.ctype = "NEGATIVE")).map (fun cr => controlGrnVal cr.2)

/-- The red control-channel values of the NEGATIVE control beads. -/
def negRedVals (rows : List (Control × BeadRow)) : List (Option ℚ) :=
  (rows.filter (fun cr => cr.1.ctype = "NEGATIVE")).map (fun cr => controlRedVal cr.2)

/-- `neg_means_grn` of DNAm line 142. -/
def negMeansGrn (rows : List (Control × BeadRow)) : Option ℚ := pdMean (negGrnVals rows)

/-- `neg_means_red` of DNAm line 151. -/
def negMeansRed (rows : List (Control × BeadRow)) : Option ℚ := pdMean (negRedVals rows)

/-- Sample variance behind `neg_sds_grn` of DNAm line 143. -/
def negVarGrn (rows : List (Control × BeadRow)) : Option ℚ := pdVar (negGrnVals rows)

/-- Sample variance behind `neg_sds_red` of DNAm line 152. -/
def negVarRed (rows : List (Control × BeadRow)) : Option ℚ := pdVar (negRedVals rows)

/-- The loop of DNAm lines 135-143 recomputes `neg_means_grn` for EVERY
sample column, overwriting the previous value, so the value the threshold
computation later consumes is the one left by the LAST iteration. -/
def negMeansGrnUsed (samples : List (List (Control × BeadRow))) : Option ℚ :=
  samples.foldl (fun _ rows => negMeansGrn rows) none

end Methyl

noncomputable section

namespace Methyl

/-- Missing-propagating binary operation on possibly-NaN reals. -/
def omap2 (f : ℝ → ℝ → ℝ) : Option ℝ → Option ℝ → Option ℝ
  | some a, some b => some (f a b)
  | _, _ => none

/-- Lift a possibly-missing rational to a possibly-missing real. -/
def toRealOpt (q : Option ℚ) : Option ℝ := q.map (fun x => (x : ℝ))

/-- pandas `Series.std()` (ddof = 1): square root of the sample variance. -/
def negSdGrn (rows : List (Control × BeadRow)) : Option ℝ :=
  Option.map (fun q : ℚ => Real.sqrt ((q : ℝ))) (negVarGrn rows)

/-- Red-channel sample standard deviation of the negative controls. -/
def negSdRed (rows : List (Control × BeadRow)) : Option ℝ :=
  Option.map (fun q : ℚ => Real.sqrt ((q : ℝ))) (negVarRed rows)

/-- `neg_means_ = np.mean([neg_means_grn, neg_means_red])` (DNAm line 156):
the plain mean of the two channel means (NaN propagates). -/
def negMeansOverall (mg mr : Option ℝ) : Option ℝ :=
  omap2 (fun a b => (a + b) / 2) mg mr

/-- `neg_sds_ = np.std([neg_sds_grn, neg_sds_red])` (DNAm line 157): the
POPULATION standard deviation of the two per-channel SDs. -/
def negSdsOverall (sg sr : Option ℝ) : Option ℝ :=
  omap2 (fun a b =>
    Real.sqrt (((a - (a + b) / 2) ^ 2 + (b - (a + b) / 2) ^ 2) / 2)) sg sr

/-- `threshold_inf1grn = 2*neg_means_grn + z*np.sqrt(2)*neg_sds_grn`
(DNAm line 161); `z = norm.ppf(1 - detection)` is kept as a parameter, the
inverse normal CDF being computed by scipy outside the core. -/
def thresholdInf1Grn (z : ℝ) (m s : Option ℝ) : Option ℝ :=
  omap2 (fun a b => 2 * a + z * Real.sqrt 2 * b) m s

/-- `threshold_inf1red` (DNAm line 162), same formula on the red channel. -/
def thresholdInf1Red (z : ℝ) (m s : Option ℝ) : Option ℝ :=
  omap2 (fun a b => 2 * a + z * Real.sqrt 2 * b) m s

/-- `threshold_inf2 = np.sum(neg_means_) + z*np.sqrt(np.sum(neg_sds_ ** 2))`
(DNAm line 163): `neg_means_` and `neg_sds_` are scalars, so the two
`np.sum` are the identity and the formula is m + z*sqrt(s^2). -/
def thresholdInf2 (z : ℝ) (m s : Option ℝ) : Option ℝ :=
  omap2 (fun a b => a + z * Real.sqrt (b ^ 2)) m s

/-- The Type II threshold as the specification words it:
`threshold_II = neg_mean_overall + z*sqrt(neg_sd_overall^2 * 2)`. -/
def thresholdInf2Spec (z : ℝ) (m s : Option ℝ) : Option ℝ :=
  omap2 (fun a b => a + z * Real.sqrt (b ^ 2 * 2)) m s

/-- The three detection thresholds derived from one sample's joined controls
table (DNAm lines 141-163). -/
def thresholdsOfSample (z : ℝ) (rows : List (Control × BeadRow)) :
    Option ℝ × Option ℝ × Option ℝ :=
  (thresholdInf1Grn z (toRealOpt (negMeansGrn rows)) (negSdGrn rows),
   thresholdInf1Red z (toRealOpt (negMeansRed rows)) (negSdRed rows),
   thresholdInf2 z
     (negMeansOverall (toRealOpt (negMeansGrn rows)) (toRealOpt (negMeansRed rows)))
     (negSdsOverall (negSdGrn rows) (negSdRed rows)))

end Methyl

end

namespace Methyl

lemma skipna_nil : skipna [] = [] := rfl

lemma skipna_cons_some (a : ℚ) (xs : List (Option ℚ)) :
    skipna (some a :: xs) = a :: skipna xs := rfl

lemma skipna_cons_none (xs : List (Option ℚ)) :
    skipna (none :: xs) = skipna xs := rfl

lemma skipna_eq_nil (xs : List (Option ℚ)) (h : ∀ x ∈ xs, x = none) :
    skipna xs = [] := by
  simp only [skipna, List.filterMap_eq_nil_iff]
  intro a ha
  rw [h a ha]
  rfl

/-- Three negative control beads joined to one sample's bead data: green
channel values 1, 2, 3 (mean 2, sample variance 1) and red channel values
10, 13, 16 (mean 13, sample variance 9). -/
def exNegRows : List (Control × BeadRow) :=
  [ (⟨"NEGATIVE", "negative 1"⟩, ⟨1, 1, 0, 1, 10, 0⟩),
    (⟨"NEGATIVE", "negative 2"⟩, ⟨1, 2, 0, 1, 13, 0⟩),
    (⟨"NEGATIVE", "negative 3"⟩, ⟨1, 3, 0, 1, 16, 0⟩) ]

lemma exNeg_grnVals : negGrnVals exNegRows = [some 1, some 2, some 3] := rfl

lemma exNeg_redVals : negRedVals exNegRows = [some 10, some 13, some 16] := rfl

lemma exNeg_meansGrn : negMeansGrn exNegRows = some 2 := by
  simp only [negMeansGrn, exNeg_grnVals, pdMean, skipna_cons_some, skipna_nil]
  norm_num [List.sum_cons, List.sum_nil]

lemma exNeg_meansRed : negMeansRed exNegRows = some 13 := by
  simp only [negMeansRed, exNeg_redVals, pdMean, skipna_cons_some, skipna_nil]
  norm_num [List.sum_cons, List.sum_nil]

lemma exNeg_varGrn : negVarGrn exNegRows = some 1 := by
  simp only [negVarGrn, exNeg_grnVals, pdVar, skipna_cons_some, skipna_nil]
  norm_num [List.sum_cons, List.sum_nil, List.map_cons, List.map_nil]

lemma exNeg_varRed : negVarRed exNegRows = some 9 := by
  simp only [negVarRed, exNeg_redVals, pdVar, skipna_cons_some, skipna_nil]
  norm_num [List.sum_cons, List.sum_nil, List.map_cons, List.map_nil]

lemma exNeg_sdGrn : negSdGrn exNegRows = some 1 := by
  simp only [negSdGrn, exNeg_varGrn, Option.map_some']
  norm_num [Real.sqrt_one]

lemma exNeg_sdRed : negSdRed exNegRows = some 3 := by
  simp only [negSdRed, exNeg_varRed, Option.map_some']
  rw [show ((9 : ℚ) : ℝ) = (3 : ℝ) ^ 2 by norm_num]
  rw [Real.sqrt_sq (by norm_num : (0 : ℝ) ≤ 3)]

/-- C3, counterexample.  On the concrete negative-control data (per-channel
SDs 1 and 3, so `neg_sds_ = 1`, `neg_means_ = 15/2`) and with z = 1, the
code computes `threshold_inf2 = 15/2 + sqrt(1^2) = 17/2`, while the claimed
formula gives `15/2 + sqrt(1^2 * 2) = 15/2 + sqrt 2`: the factor 2 inside
the square root of the claim is not in the code (line 163 applies `np.sum`
to scalars, which is the identity). -/
theorem claim_C3_counterexample :
    thresholdInf2 1
        (negMeansOverall (toRealOpt (negMeansGrn exNegRows)) (toRealOpt (negMeansRed exNegRows)))
        (negSdsOverall (negSdGrn exNegRows) (negSdRed exNegRows))
      ≠ thresholdInf2Spec 1
        (negMeansOverall (toRealOpt (negMeansGrn exNegRows)) (toRealOpt (negMeansRed exNegRows)))
        (negSdsOverall (negSdGrn exNegRows) (negSdRed exNegRows)) := by
  have hM : negMeansOverall (toRealOpt (negMeansGrn exNegRows)) (toRealOpt (negMeansRed exNegRows))
      = some ((15 : ℝ) / 2) := by
    rw [exNeg_meansGrn, exNeg_meansRed]
    simp only [toRealOpt, Option.map_some', negMeansOverall, omap2]
    norm_num
  have hS : negSdsOverall (negSdGrn exNegRows) (negSdRed exNegRows) = some 1 := by
    rw [exNeg_sdGrn, exNeg_sdRed]
    simp only [negSdsOverall, omap2]
    rw [show (((1 : ℝ) - (1 + 3) / 2) ^ 2 + ((3 : ℝ) - (1 + 3) / 2) ^ 2) / 2 = 1 by norm_num]
    rw [Real.sqrt_one]
  rw [hM, hS]
  simp only [thresholdInf2, thresholdInf2Spec, omap2]
  intro h
  rw [Option.some.injEq] at h
  rw [show ((1 : ℝ) ^ 2) = 1 by norm_num, Real.sqrt_one] at h
  rw [show ((1 : ℝ) * 2) = 2 by norm_num] at h
  have h3 : Real.sqrt 2 = 1 := by linarith
  have h4 := Real.sq_sqrt (by norm_num : (0 : ℝ) ≤ 2)
  rw [h3] at h4
  norm_num at h4

/-- C3, amended.  The Type I threshold formulas are as claimed
(`2*neg_mean + z*sqrt(2)*neg_sd` per channel, so with neg_mean_grn = 100 and
neg_sd_grn = 10 the green threshold is 200 + z*sqrt(2)*10, i.e. about 223.3
at z = 1.645), but the Type II threshold carries NO factor 2 inside the
square root: `threshold_II = neg_mean_overall + z*sqrt(neg_sd_overall^2)` =
`neg_mean_overall + z*neg_sd_overall`.  Moreover the per-column loops
overwrite the negative-control statistics, so the thresholds are single
scalars computed from the statistics of the last loop iteration and shared
by all samples (in DNAm every column is filled from the same bead table, so
the iterations coincide). -/
theorem claim_C3_thresholds_amended (z m s : ℝ) (hs : 0 ≤ s)
    (samples : List (List (Control × BeadRow))) (rows : List (Control × BeadRow)) :
    thresholdInf1Grn z (some m) (some s) = some (2 * m + z * Real.sqrt 2 * s)
    ∧ thresholdInf1Red z (some m) (some s) = some (2 * m + z * Real.sqrt 2 * s)
    ∧ thresholdInf2 z (some m) (some s) = some (m + z * s)
    ∧ thresholdInf1Grn z (some 100) (some 10) = some (200 + z * Real.sqrt 2 * 10)
    ∧ negMeansGrnUsed (samples ++ [rows]) = negMeansGrn rows := by
  refine ⟨rfl, rfl, ?_, ?_, ?_⟩
  · simp only [thresholdInf2, omap2, Real.sqrt_sq hs]
  · simp only [thresholdInf1Grn, omap2]
    norm_num
  · simp [negMeansGrnUsed, List.foldl_append]

/-- C3, witness: the amended theorem at z = 1, m = 100, s = 10 and the loop
ending with the concrete negative-control sample. -/
theorem claim_C3_witness :
    ((0 : ℝ) ≤ 10)
    ∧ (thresholdInf1Grn 1 (some 100) (some 10) = some (2 * 100 + 1 * Real.sqrt 2 * 10)
      ∧ thresholdInf1Red 1 (some 100) (some 10) = some (2 * 100 + 1 * Real.sqrt 2 * 10)
      ∧ thresholdInf2 1 (some 100) (some 10) = some (100 + 1 * 10)
      ∧ thresholdInf1Grn 1 (some 100) (some 10) = some (200 + 1 * Real.sqrt 2 * 10)
      ∧ negMeansGrnUsed ([] ++ [exNegRows]) = negMeansGrn exNegRows) :=
  ⟨by norm_num, claim_C3_thresholds_amended 1 100 10 (by norm_num) [] exNegRows⟩

/-- Two negative control beads whose bead counts are zero in both channels,
so every negative-control value is missing. -/
def exDegenRows : List (Control × BeadRow) :=
  [ (⟨"NEGATIVE", "negative 1"⟩, ⟨0, 5, 0, 0, 6, 0⟩),
    (⟨"NEGATIVE", "negative 2"⟩, ⟨0, 7, 0, 0, 8, 0⟩) ]

/-- C7, counterexample.  With an all-missing negative-control subgroup the
pipeline raises nothing: the source defines no DegenerateInputError (nor any
error type), and the background means and all three detection thresholds are
silently NaN — the stage is a total computation producing missing values. -/
theorem claim_C7_counterexample :
    negMeansGrn exDegenRows = none
    ∧ negMeansRed exDegenRows = none
    ∧ thresholdsOfSample 1 exDegenRows = (none, none, none) :=
  ⟨rfl, rfl, rfl⟩

/-- C7, amended.  For every sample whose negative-control values are all
missing in both channels, the run continues with NaN: the negative-control
means are missing and all three detection thresholds are missing; no
exception of any kind is raised (the code has no error handling at this
stage). -/
theorem claim_C7_nan_amended (z : ℝ) (rows : List (Control × BeadRow))
    (hg : ∀ x ∈ negGrnVals rows, x = none) (hr : ∀ x ∈ negRedVals rows, x = none) :
    negMeansGrn rows = none ∧ negMeansRed rows = none
    ∧ thresholdsOfSample z rows = (none, none, none) := by
  have hg0 : skipna (negGrnVals rows) = [] := skipna_eq_nil _ hg
  have hr0 : skipna (negRedVals rows) = [] := skipna_eq_nil _ hr
  have hmg : negMeansGrn rows = none := by simp [negMeansGrn, pdMean, hg0]
  have hmr : negMeansRed rows = none := by simp [negMeansRed, pdMean, hr0]
  have hvg : negVarGrn rows = none := by simp [negVarGrn, pdVar, hg0]
  have hvr : negVarRed rows = none := by simp [negVarRed, pdVar, hr0]
  refine ⟨hmg, hmr, ?_⟩
  simp [thresholdsOfSample, thresholdInf1Grn, thresholdInf1Red, thresholdInf2,
    negSdGrn, negSdRed, negMeansOverall, negSdsOverall, toRealOpt, omap2,
    hmg, hmr, hvg, hvr]

/-- C7, witness: the amended theorem applied to the concrete degenerate
controls table at z = 1. -/
theorem claim_C7_witness :
    ((∀ x ∈ negGrnVals exDegenRows, x = none) ∧ (∀ x ∈ negRedVals exDegenRows, x = none))
    ∧ (negMeansGrn exDegenRows = none ∧ negMeansRed exDegenRows = none
      ∧ thresholdsOfSample 1 exDegenRows = (none, none, none)) :=
  ⟨⟨by decide, by decide⟩, claim_C7_nan_amended 1 exDegenRows (by decide) (by decide)⟩

end Methyl

namespace Methyl

/-- One sample column of the beta matrix (`dnam[column]`), rows aligned with
the probe order after `dnam.set_index(probes.index)`. -/
def columnOf (m : List (List PFloat)) (j : ℕ) : List PFloat :=
  m.map (fun r => r.getD j PFloat.nan)

/-- `dnam[column].loc[idy].isna().mean()` of DNAm lines 332-333 (CH3
lines 382-385): select the rows whose probe chromosome is Y, and take the
mean of the is-missing indicator — missing itself when there are no
chromosome Y probes (pandas mean of an empty series). -/
def missingChrY (chrs : List String) (col : List PFloat) : Option ℚ :=
  let ys := ((chrs.zip col).filter (fun pc => pc.1 = "Y")).map Prod.snd
  if ys.length = 0 then none
  else some ((ys.countP (fun v => v.isNA) : ℚ) / (ys.length : ℚ))

/-- The `missing_chrY` entry of the summary table for sample `j`. -/
def missingChrYStat (chrs : List String) (dnam : List (List PFloat)) (j : ℕ) : Option ℚ :=
  missingChrY chrs (columnOf dnam j)

/-- C9.  For every sample, `missing_chrY` equals the fraction of
chromosome Y probes whose beta-value is missing in that sample's column of
the beta matrix; in particular, when every chromosome Y beta is missing (and
at least one chromosome Y probe exists) the metric is exactly 1. -/
theorem claim_C9_missing_chrY (chrs : List String) (dnam : List (List PFloat)) (j : ℕ)
    (hne : ((chrs.zip (columnOf dnam j)).filter (fun pc => pc.1 = "Y")).length ≠ 0) :
    missingChrYStat chrs dnam j
      = some (((((chrs.zip (columnOf dnam j)).filter (fun pc => pc.1 = "Y")).countP
            (fun pc => pc.2.isNA)) : ℚ)
          / ((((chrs.zip (columnOf dnam j)).filter (fun pc => pc.1 = "Y")).length : ℚ)))
    ∧ ((∀ pc ∈ (chrs.zip (columnOf dnam j)).filter (fun pc => pc.1 = "Y"),
          pc.2.isNA = true) →
        missingChrYStat chrs dnam j = some 1) := by
  have hcount : (((chrs.zip (columnOf dnam j)).filter (fun pc => pc.1 = "Y")).map
        Prod.snd).countP (fun v => v.isNA)
      = ((chrs.zip (columnOf dnam j)).filter (fun pc => pc.1 = "Y")).countP
        (fun pc => pc.2.isNA) := by
    rw [List.countP_map]
    rfl
  have hlen : (((chrs.zip (columnOf dnam j)).filter (fun pc => pc.1 = "Y")).map
        Prod.snd).length
      = ((chrs.zip (columnOf dnam j)).filter (fun pc => pc.1 = "Y")).length :=
    List.length_map _ _
  have h1 : missingChrYStat chrs dnam j
      = some (((((chrs.zip (columnOf dnam j)).filter (fun pc => pc.1 = "Y")).countP
            (fun pc => pc.2.isNA)) : ℚ)
          / ((((chrs.zip (columnOf dnam j)).filter (fun pc => pc.1 = "Y")).length : ℚ))) := by
    simp only [missingChrYStat, missingChrY]
    rw [hcount, hlen, if_neg hne]
  refine ⟨h1, fun hall => ?_⟩
  rw [h1]
  have hc : ((chrs.zip (columnOf dnam j)).filter (fun pc => pc.1 = "Y")).countP
        (fun pc => pc.2.isNA)
      = ((chrs.zip (columnOf dnam j)).filter (fun pc => pc.1 = "Y")).length := by
    rw [List.countP_eq_length]
    intro a ha
    exact hall a ha
  rw [hc, div_self (by exact_mod_cast hne)]

/-- C9, witness: two chromosome Y probes, one sample, both betas missing. -/
theorem claim_C9_witness :
    ((((["Y", "Y"]).zip (columnOf [[PFloat.nan], [PFloat.nan]] 0)).filter
        (fun pc => pc.1 = "Y")).length ≠ 0)
    ∧ (missingChrYStat ["Y", "Y"] [[PFloat.nan], [PFloat.nan]] 0
        = some ((((((["Y", "Y"]).zip (columnOf [[PFloat.nan], [PFloat.nan]] 0)).filter
              (fun pc => pc.1 = "Y")).countP (fun pc => pc.2.isNA)) : ℚ)
            / ((((["Y", "Y"]).zip (columnOf [[PFloat.nan], [PFloat.nan]] 0)).filter
              (fun pc => pc.1 = "Y")).length : ℚ))
      ∧ ((∀ pc ∈ ((["Y", "Y"]).zip (columnOf [[PFloat.nan], [PFloat.nan]] 0)).filter
            (fun pc => pc.1 = "Y"), pc.2.isNA = true) →
          missingChrYStat ["Y", "Y"] [[PFloat.nan], [PFloat.nan]] 0 = some 1)) :=
  ⟨by decide, claim_C9_missing_chrY ["Y", "Y"] [[PFloat.nan], [PFloat.nan]] 0 (by decide)⟩

end Methyl

namespace Methyl

/-- Which branch of the trailing `if return_intensities / elif return_snps_r
/ else` dispatch is taken (CH3 lines 392-402, DNAm lines 340-347). -/
inductive Branch where
  | intensitiesB : Branch
  | snpsrB : Branch
  | defaultB : Branch
deriving DecidableEq

/-- The branch selected by the two flags: `return_intensities` is tested
first, `return_snps_r` only when it is false. -/
def chosenBranch (retIntensities retSnpsR : Bool) : Branch :=
  if retIntensities then Branch.intensitiesB
  else if retSnpsR then Branch.snpsrB
  else Branch.defaultB

/-- A data frame: named columns of possibly-missing values.  Used for the
`intensities` totals frame, whose columns are keyed by sample id. -/
structure DFrame where
  cols : List (String × List (Option ℚ))
deriving DecidableEq

/-- pandas `df[labels]` column selection: KeyError when any requested label
is not a column. -/
def dfSelect (df : DFrame) (labels : List String) : Except String DFrame :=
  if labels.all (fun l => (df.cols.map Prod.fst).contains l) then
    Except.ok ⟨labels.filterMap (fun l =>
      (df.cols.find? (fun c => c.1 = l)).map (fun c => (l, c.2)))⟩
  else Except.error "KeyError"

end Methyl

noncomputable section

namespace Methyl

/-- `np.sqrt(np.sum(sel ** 2))` on a selected frame: per column, the square
root of the sum of squares of the present entries. -/
def snpsRValue (df : DFrame) : List (String × ℝ) :=
  df.cols.map (fun c =>
    (c.1, Real.sqrt (((skipna c.2).map (fun q => ((q : ℚ) : ℝ) ^ 2)).sum)))

/-- The possible pipeline results: the seven-output form
(summary, betas, SNP thetas, intensities A, intensities B, controls red,
controls green), the SNP radius branch value, or the default triple. -/
inductive RunOutput (α : Type) where
  | full : α → α → α → α → α → α → α → RunOutput α
  | snpsRadius : List (String × ℝ) → RunOutput α
  | basic : α → α → α → RunOutput α

/-- CH3 return dispatch, lines 392-402.  The `return_snps_r` branch computes
`snps_r = np.sqrt(np.sum(intensities[idx]**2))`, where `idx` holds SNP probe
NAME labels while the columns of `intensities` are SAMPLE ids, so the column
selection raises KeyError whenever any SNP probe exists. -/
def returnStageCH3 {α : Type} (retIntensities retSnpsR : Bool)
    (samples cpgs snps iA iB cRed cGrn : α) (intens : DFrame) (snpLabels : List String) :
    Except String (RunOutput α) :=
  if retIntensities then Except.ok (RunOutput.full samples cpgs snps iA iB cRed cGrn)
  else if retSnpsR then
    Except.map (fun sel => RunOutput.snpsRadius (snpsRValue sel)) (dfSelect intens snpLabels)
  else Except.ok (RunOutput.basic samples cpgs snps)

/-- DNAm return dispatch, lines 340-347.  Line 343 reads
`elif return_snps == True:` but the parameter is named `return_snps_r` and
no `return_snps` exists, so whenever `return_intensities` is false Python
raises NameError while evaluating the elif condition — neither the SNP
branch nor the default triple can ever be returned. -/
def returnStageDNAm {α : Type} (retIntensities : Bool) (full : α) : Except String α :=
  if retIntensities then Except.ok full else Except.error "NameError"

/-- C8: invoking the pipeline with return_snps_r true and return_intensities
false never returns the SNP radius matrix.  DNAm raises NameError (the elif
tests the undefined name `return_snps`), and CH3 raises KeyError (the SNP
probe labels are looked up among the sample-id columns of the totals frame,
here column "sample1" versus label "rs1"). -/
theorem claim_C8_return_error :
    returnStageDNAm false ((0 : ℕ)) = Except.error "NameError"
    ∧ returnStageCH3 false true (0 : ℕ) 0 0 0 0 0 0
        (⟨[("sample1", [some 1])]⟩ : DFrame) ["rs1"]
      = Except.error "KeyError" := by
  constructor
  · rfl
  · rfl

/-- C10.  Whenever `return_intensities` is true, the pipeline returns the
seven-output form (summary, betas, SNP thetas, intensities A, intensities B,
controls red, controls green) regardless of `return_snps_r` (in both the CH3
and the DNAm dispatch), and the `return_snps_r` branch is selected only when
`return_intensities` is false. -/
theorem claim_C10_return_priority {α : Type} (retI retS : Bool)
    (samples cpgs snps iA iB cRed cGrn : α) (intens : DFrame) (snpLabels : List String) :
    (retI = true →
      returnStageCH3 retI retS samples cpgs snps iA iB cRed cGrn intens snpLabels
        = Except.ok (RunOutput.full samples cpgs snps iA iB cRed cGrn)
      ∧ chosenBranch retI retS = Branch.intensitiesB
      ∧ returnStageDNAm retI (samples, cpgs, snps, iA, iB, cRed, cGrn)
        = Except.ok (samples, cpgs, snps, iA, iB, cRed, cGrn))
    ∧ (chosenBranch retI retS = Branch.snpsrB → retI = false) := by
  cases retI
  · exact ⟨fun h => Bool.noConfusion h, fun _ => rfl⟩
  · exact ⟨fun _ => ⟨rfl, rfl, rfl⟩, fun h => Branch.noConfusion h⟩

/-- C10, witness: the dispatch theorem at return_intensities true and
return_snps_r true with concrete payloads. -/
theorem claim_C10_witness :
    ((true : Bool) = true →
      returnStageCH3 true true (0 : ℕ) 1 2 3 4 5 6 (⟨[]⟩ : DFrame) []
        = Except.ok (RunOutput.full 0 1 2 3 4 5 6)
      ∧ chosenBranch true true = Branch.intensitiesB
      ∧ returnStageDNAm true ((0 : ℕ), (1 : ℕ), (2 : ℕ), (3 : ℕ), (4 : ℕ), (5 : ℕ), (6 : ℕ))
        = Except.ok ((0 : ℕ), (1 : ℕ), (2 : ℕ), (3 : ℕ), (4 : ℕ), (5 : ℕ), (6 : ℕ)))
    ∧ (chosenBranch true true = Branch.snpsrB → (true : Bool) = false) :=
  claim_C10_return_priority true true 0 1 2 3 4 5 6 ⟨[]⟩ []

end Methyl

end
